import Mathlib

/-!
Shallow embedding of the spike-detection core of the repository
(src/fyers.py): the trading-configuration constants, the static
symbol-to-sector lookup, the WebSocket tick handler
`VolumeSpikeDetector.on_message`, and the run-controller function
`_start_stream_once`, together with theorems settling the spec claims.

Modelling conventions:
- Python floats carrying prices are modelled as exact rationals (ℚ);
  traded quantities as integers (ℤ); wall-clock instants as ℕ seconds.
- The external sinks `add_to_sheet` (persist) and `send_telegram_alert`
  (notify) are modelled as oracle functions `SpikeData → Bool` giving
  the success value each call would return; the handler in the source
  discards both return values, which the embedding mirrors.
- `check_market_end()` depends on wall-clock scheduling state external
  to the handler; it is passed in as the boolean `marketEnded`.
- The whole Python handler body is wrapped in `try/except Exception`
  that only logs, so the handler never propagates an exception; the
  embedding is a total function, which captures exactly that.
-/

namespace Penny

/-- Trading configuration from src/fyers.py line 49:
`INDIVIDUAL_TRADE_THRESHOLD = 3000000  # Rs 3 million for individual trades`. -/
def INDIVIDUAL_TRADE_THRESHOLD : ℚ := 3000000

/-- Trading configuration from src/fyers.py line 50:
`MIN_VOLUME_SPIKE = 1000  # Minimum volume spike to consider`.
This constant is declared in the source but never read by any function. -/
def MIN_VOLUME_SPIKE : ℤ := 1000

/-- The static symbol-to-sector dictionary literal `SECTOR_MAPPING`
(src/fyers.py lines 313-687), as an association list in source order. -/
def SECTOR_MAPPING : List (String × String) := [
  ("NSE:ROLLT-EQ", "Textiles"),
  ("NSE:TRIDENT-EQ", "Textiles"),
  ("NSE:VIPCLOTHNG-EQ", "Textiles"),
  ("NSE:INDORAMA-EQ", "Textiles"),
  ("NSE:FILATEX-EQ", "Textiles"),
  ("NSE:RSWM-EQ", "Textiles"),
  ("NSE:ABFRL-EQ", "Textiles"),
  ("NSE:ESSENTIA-EQ", "Pharmaceuticals"),
  ("NSE:NIVABUPA-EQ", "Pharmaceuticals"),
  ("NSE:KOPRAN-EQ", "Pharmaceuticals"),
  ("NSE:GPTHEALTH-EQ", "Pharmaceuticals"),
  ("NSE:SUNDARAM-EQ", "Automobiles"),
  ("NSE:OMAXAUTO-EQ", "Automobiles"),
  ("NSE:ROLEXRINGS-EQ", "Automobiles"),
  ("NSE:TVSSCS-EQ", "Automobiles"),
  ("NSE:MOTHERSON-EQ", "Automobiles"),
  ("NSE:UCAL-EQ", "Automobiles"),
  ("NSE:REMSONSIND-EQ", "Automobiles"),
  ("NSE:GANDHAR-EQ", "Automobiles"),
  ("NSE:JTEKTINDIA-EQ", "Automobiles"),
  ("NSE:ASHOKLEY-EQ", "Automobiles"),
  ("NSE:AUTOIND-EQ", "Automobiles"),
  ("NSE:PARASPETRO-EQ", "Oil & Gas"),
  ("NSE:GULFPETRO-EQ", "Oil & Gas"),
  ("NSE:CONFIPET-EQ", "Oil & Gas"),
  ("NSE:MRPL-EQ", "Oil & Gas"),
  ("NSE:RHFL-EQ", "Financial Services"),
  ("NSE:BAJAJHFL-EQ", "Financial Services"),
  ("NSE:PNBGILTS-EQ", "Financial Services"),
  ("NSE:FEDFINA-EQ", "Financial Services"),
  ("NSE:DAVANGERE-EQ", "Agriculture"),
  ("NSE:DWARKESH-EQ", "Agriculture"),
  ("NSE:HMAAGRO-EQ", "Agriculture"),
  ("NSE:PARADEEP-EQ", "Agriculture"),
  ("NSE:RAJMET-EQ", "Metals & Mining"),
  ("NSE:RAMASTEEL-EQ", "Metals & Mining"),
  ("NSE:MANAKSTEEL-EQ", "Metals & Mining"),
  ("NSE:VISAKAIND-EQ", "Metals & Mining"),
  ("NSE:NMDC-EQ", "Metals & Mining"),
  ("NSE:ELECTCAST-EQ", "Metals & Mining"),
  ("NSE:RAIN-EQ", "Metals & Mining"),
  ("NSE:SARVESHWAR-EQ", "Construction"),
  ("NSE:RUCHINFRA-EQ", "Construction"),
  ("NSE:JYOTISTRUC-EQ", "Construction"),
  ("NSE:SADBHAV-EQ", "Construction"),
  ("NSE:IRB-EQ", "Construction"),
  ("NSE:ATLANTAA-EQ", "Construction"),
  ("NSE:OMAXE-EQ", "Construction"),
  ("NSE:GPTINFRA-EQ", "Construction"),
  ("NSE:NBCC-EQ", "Construction"),
  ("NSE:MANINFRA-EQ", "Construction"),
  ("NSE:URBANCO-EQ", "Construction"),
  ("NSE:GMRAIRPORT-EQ", "Construction"),
  ("NSE:AGSTRA-EQ", "Agriculture"),
  ("NSE:KRITINUT-EQ", "Agriculture"),
  ("NSE:KESORAMIND-EQ", "Cement"),
  ("NSE:SANGHIIND-EQ", "Cement"),
  ("NSE:JSWCEMENT-EQ", "Cement"),
  ("NSE:LYPSAGEMS-EQ", "Consumer Goods"),
  ("NSE:RBZJEWEL-EQ", "Consumer Goods"),
  ("NSE:UNITECH-EQ", "Real Estate"),
  ("NSE:ATALREAL-EQ", "Real Estate"),
  ("NSE:KOHINOOR-EQ", "Real Estate"),
  ("NSE:IMAGICAA-EQ", "Real Estate"),
  ("NSE:VASWANI-EQ", "Real Estate"),
  ("NSE:UNIVASTU-EQ", "Real Estate"),
  ("NSE:TARC-EQ", "Real Estate"),
  ("NSE:EASEMYTRIP-EQ", "Travel & Transport"),
  ("NSE:THOMASCOOK-EQ", "Travel & Transport"),
  ("NSE:AFIL-EQ", "Financial Services"),
  ("NSE:BAIDFIN-EQ", "Financial Services"),
  ("NSE:CAPTRUST-EQ", "Financial Services"),
  ("NSE:CIFL-EQ", "Financial Services"),
  ("NSE:PAISALO-EQ", "Financial Services"),
  ("NSE:CENTRUM-EQ", "Financial Services"),
  ("NSE:ARFIN-EQ", "Financial Services"),
  ("NSE:GEOJITFSL-EQ", "Financial Services"),
  ("NSE:EDELWEISS-EQ", "Financial Services"),
  ("NSE:MUFIN-EQ", "Financial Services"),
  ("NSE:ARIHANTCAP-EQ", "Financial Services"),
  ("NSE:JMFINANCIL-EQ", "Financial Services"),
  ("NSE:SAMMAANCAP-EQ", "Financial Services"),
  ("NSE:BIRLAMONEY-EQ", "Financial Services"),
  ("NSE:ASTRON-EQ", "Paper & Packaging"),
  ("NSE:PDMJEPAPER-EQ", "Paper & Packaging"),
  ("NSE:PAKKA-EQ", "Paper & Packaging"),
  ("NSE:VAKRANGEE-EQ", "Information Technology"),
  ("NSE:3IINFOLTD-EQ", "Information Technology"),
  ("NSE:TRACXN-EQ", "Information Technology"),
  ("NSE:VERTOZ-EQ", "Information Technology"),
  ("NSE:ISFT-EQ", "Information Technology"),
  ("NSE:XELPMOC-EQ", "Information Technology"),
  ("NSE:DIGITIDE-EQ", "Information Technology"),
  ("NSE:GTL-EQ", "Telecommunications"),
  ("NSE:IDEA-EQ", "Telecommunications"),
  ("NSE:HATHWAY-EQ", "Telecommunications"),
  ("NSE:DEN-EQ", "Telecommunications"),
  ("NSE:TTML-EQ", "Telecommunications"),
  ("NSE:STLTECH-EQ", "Telecommunications"),
  ("NSE:SAMBHAAV-EQ", "Construction"),
  ("NSE:AXITA-EQ", "Construction"),
  ("NSE:SANGINITA-EQ", "Construction"),
  ("NSE:DPSCLTD-EQ", "Power"),
  ("NSE:URJA-EQ", "Power"),
  ("NSE:INDOWIND-EQ", "Power"),
  ("NSE:JPPOWER-EQ", "Power"),
  ("NSE:RPOWER-EQ", "Power"),
  ("NSE:SUZLON-EQ", "Power"),
  ("NSE:INOXWIND-EQ", "Power"),
  ("NSE:WEBELSOLAR-EQ", "Power"),
  ("NSE:ADANIPOWER-EQ", "Power"),
  ("NSE:SJVN-EQ", "Power"),
  ("NSE:IREDA-EQ", "Power"),
  ("NSE:IRFC-EQ", "Power"),
  ("NSE:PTC-EQ", "Power"),
  ("NSE:BEPL-EQ", "Power"),
  ("NSE:SGL-EQ", "Metals & Mining"),
  ("NSE:BALAJEE-EQ", "Metals & Mining"),
  ("NSE:BIRLACABLE-EQ", "Metals & Mining"),
  ("NSE:HCL-INSYS-EQ", "Information Technology"),
  ("NSE:PATINTLOG-EQ", "Travel & Transport"),
  ("NSE:SNOWMAN-EQ", "Travel & Transport"),
  ("NSE:SOMICONVEY-EQ", "Travel & Transport"),
  ("NSE:GAEL-EQ", "Travel & Transport"),
  ("NSE:BLUSPRING-EQ", "Travel & Transport"),
  ("NSE:NECLIFE-EQ", "Financial Services"),
  ("NSE:SYNCOMF-EQ", "Chemicals"),
  ("NSE:DCMNVL-EQ", "Chemicals"),
  ("NSE:HARDWYN-EQ", "Consumer Goods"),
  ("NSE:CUBEXTUB-EQ", "Consumer Goods"),
  ("NSE:EXICOM-EQ", "Consumer Goods"),
  ("NSE:CINEVISTA-EQ", "Media"),
  ("NSE:ARCHIES-EQ", "Media"),
  ("NSE:NETWORK18-EQ", "Media"),
  ("NSE:NDTV-EQ", "Media"),
  ("NSE:ENIL-EQ", "Media"),
  ("NSE:ASHIMASYN-EQ", "Chemicals"),
  ("NSE:ESTER-EQ", "Chemicals"),
  ("NSE:KHAICHEM-EQ", "Chemicals"),
  ("NSE:DCWLTD-EQ", "Chemicals"),
  ("NSE:ANIKINDS-EQ", "Chemicals"),
  ("NSE:INDOAMIN-EQ", "Chemicals"),
  ("NSE:APCL-EQ", "Chemicals"),
  ("NSE:ADVANCE-EQ", "Chemicals"),
  ("NSE:YESBANK-EQ", "Banking"),
  ("NSE:CENTRALBK-EQ", "Banking"),
  ("NSE:MAHABANK-EQ", "Banking"),
  ("NSE:IDFCFIRSTB-EQ", "Banking"),
  ("NSE:J&KBANK-EQ", "Banking"),
  ("NSE:PNB-EQ", "Banking"),
  ("NSE:BANKINDIA-EQ", "Banking"),
  ("NSE:BANDHANBNK-EQ", "Banking"),
  ("NSE:CANBK-EQ", "Banking"),
  ("NSE:RUSHIL-EQ", "Diversified"),
  ("NSE:USK-EQ", "Diversified"),
  ("NSE:LANCORHOL-EQ", "Diversified"),
  ("NSE:TREL-EQ", "Construction"),
  ("NSE:NSLNISP-EQ", "Construction"),
  ("NSE:RAJOOENG-EQ", "Construction"),
  ("NSE:APTECHT-EQ", "Construction"),
  ("NSE:BEDMUTHA-EQ", "Construction"),
  ("NSE:VIKRAN-EQ", "Construction"),
  ("NSE:LOKESHMACH-EQ", "Construction"),
  ("NSE:TAKE-EQ", "FMCG"),
  ("NSE:SUMEETINDS-EQ", "FMCG"),
  ("NSE:DEVYANI-EQ", "FMCG"),
  ("NSE:IRISDOREME-EQ", "Consumer Goods"),
  ("NSE:SIGACHI-EQ", "Pharmaceuticals"),
  ("NSE:LAXMIINDIA-EQ", "Pharmaceuticals"),
  ("NSE:FIBERWEB-EQ", "Textiles"),
  ("NSE:MIRZAINT-EQ", "Metals & Mining"),
  ("NSE:PARACABLES-EQ", "Consumer Goods"),
  ("NSE:DIACABS-EQ", "Consumer Goods"),
  ("NSE:MICEL-EQ", "Financial Services"),
  ("NSE:RTNINDIA-EQ", "Construction"),
  ("NSE:CTE-EQ", "Media"),
  ("NSE:DELTACORP-EQ", "Media"),
  ("NSE:JISLJALEQS-EQ", "Information Technology"),
  ("NSE:SAGILITY-EQ", "Information Technology"),
  ("NSE:BLKASHYAP-EQ", "Construction"),
  ("NSE:SCILAL-EQ", "Construction"),
  ("NSE:AARTECH-EQ", "Construction"),
  ("NSE:VASCONEQ-EQ", "Real Estate"),
  ("NSE:ADVANIHOTR-EQ", "Hotels & Tourism"),
  ("NSE:LEMONTREE-EQ", "Hotels & Tourism"),
  ("NSE:ORICONENT-EQ", "Diversified"),
  ("NSE:ROTO-EQ", "Chemicals"),
  ("NSE:VMSTMT-EQ", "Textiles"),
  ("NSE:DCW-EQ", "Chemicals"),
  ("NSE:MANALIPETC-EQ", "Chemicals"),
  ("NSE:NFL-EQ", "Agriculture"),
  ("NSE:MOL-EQ", "Media"),
  ("NSE:DJML-EQ", "Financial Services"),
  ("NSE:TFCILTD-EQ", "Chemicals"),
  ("NSE:SSDL-EQ", "Paper & Packaging"),
  ("NSE:REGAAL-EQ", "Consumer Goods"),
  ("NSE:VPRPL-EQ", "Consumer Goods"),
  ("NSE:IOLCP-EQ", "Oil & Gas"),
  ("NSE:KUANTUM-EQ", "Construction"),
  ("NSE:NAVKARCORP-EQ", "Paper & Packaging"),
  ("NSE:RGL-EQ", "Travel & Transport"),
  ("NSE:RUCHIRA-EQ", "Paper & Packaging"),
  ("NSE:SHANKARA-EQ", "Construction"),
  ("NSE:DREAMFOLKS-EQ", "Travel & Transport"),
  ("NSE:MASTERTR-EQ", "Travel & Transport"),
  ("NSE:SECMARK-EQ", "Information Technology"),
  ("NSE:WCIL-EQ", "Construction"),
  ("NSE:SDBL-EQ", "Financial Services"),
  ("NSE:ABLBL-EQ", "Metals & Mining"),
  ("NSE:SPARC-EQ", "Automobiles"),
  ("NSE:VMM-EQ", "Diversified"),
  ("NSE:AARVI-EQ", "Construction"),
  ("NSE:PWL-EQ", "Automobiles"),
  ("NSE:MANBA-EQ", "Automobiles"),
  ("NSE:PRSMJOHNSN-EQ", "Automobiles"),
  ("NSE:KOTHARIPET-EQ", "Chemicals"),
  ("NSE:BOMDYEING-EQ", "Textiles"),
  ("NSE:TOLINS-EQ", "Consumer Goods"),
  ("NSE:BSHSL-EQ", "Telecommunications"),
  ("NSE:RELTD-EQ", "Chemicals"),
  ("NSE:INDOUS-EQ", "Metals & Mining"),
  ("NSE:GROWW-EQ", "Financial Services")
]

/-- Python dictionary built from an association list literal (later
bindings override earlier ones) followed by `.get(k, dflt)`. -/
def dictGet (l : List (String × String)) (k dflt : String) : String :=
  match l.foldl (fun acc kv => if kv.1 = k then some kv.2 else acc) none with
  | some v => v
  | none => dflt

/-- `get_sector_for_symbol` (src/fyers.py lines 688-690 and its identical
duplicate at lines 1017-1019): `return SECTOR_MAPPING.get(symbol, "Others")`. -/
def get_sector_for_symbol (symbol : String) : String :=
  dictGet SECTOR_MAPPING symbol "Others"

/-- Numeric code of a string (big-endian byte fold), used to check the
sector table's keys for duplicates by comparing numbers instead of
strings. -/
def strCode (s : String) : Nat :=
  s.data.foldl (fun n c => n * 256 + c.toNat) 0

/-- `strCode` of each key of `SECTOR_MAPPING`, in table order. -/
def SECTOR_KEY_CODES : List Nat := [
  24240498528222446987690984785,
  1588625311555086140542344179303761,
  26652709995182655496312972127460379149649,
  406688079744784887059705727583864145,
  1588625311488807204430317030819153,
  94689447375873378851046737,
  24240498526993802142914790737,
  406688079739973071593141698009318737,
  406688079750806235353469938962351441,
  6205567623095820352748849546577,
  104112148414048454347080973040776725841,
  406688079756907385491272875281040721,
  406688079752033664914433704127710545,
  26652709994867594930277871366730234545489,
  6205567623262346298103616587089,
  104112148415904155480194221573762008401,
  94689447376700117089076561,
  26652709994864501355052302173089678837073,
  1588625311493382141906998585541969,
  26652709994235308620991890887886030849361,
  406688079735137166120221073084335441,
  1588625311465417313334198987998545,
  26652709994704813049684916662065183933777,
  104112148414054461161147463304014021969,
  406688079737536238324906396778054993,
  94689447374464874374317393,
  94689447375861211191919953,
  406688079736261125227540010586948945,
  406688079753247330324538082288551249,
  1588625311488732842388588413666641,
  104112148413101874746578675111285310801,
  406688079738782704133953068599166289,
  1588625311498324931724578774664529,
  406688079753186234274405256086242641,
  6205567623223937060618147546449,
  104112148417434622383143107335795066193,
  26652709994467123726291491616536381965649,
  104112148418682262162602497521669195089,
  94689447374740800102286673,
  104112148413424577697510275735203169617,
  94689447375853527528981841,
  26652709994942497636139368418509046236497,
  104112148417458753804275516103726024017,
  26652709994236868177598300200772379166033,
  1588625311550049818562544062514513,
  369880653802105132107089,
  406688079735141961265727124477396305,
  24240498528005699212283823441,
  406688079742376774867881442776270161,
  94689447374728701179413841,
  406688079749559383607861730888992081,
  1588625311559808001787478905013585,
  26652709993995473406990073529726235657553,
  6205567622910777297956200334673,
  406688079747221720756355856790799697,
  26652709994309911452172305360880113894737,
  104112148417744112225215674393828345169,
  104112148414980550228872950352433726801,
  104112148415606741041725934126444135761,
  406688079755608956502889586217534801,
  1588625311559734724552471167714641,
  406688079735141759145285255506511185,
  406688079747207534418938088320222545,
  406688079744780108773998757199824209,
  1588625311564218004778397113075025,
  406688079759292089628439551499126097,
  94689447376416515952559441,
  26652709993833304489733266768435029558609,
  26652709995023888524369836589463529932113,
  94689447371073950449485137,
  1588625311469769949202515439207761,
  406688079737470163098979518173234513,
  94689447371640186052887889,
  1588625311535883084179330466399569,
  1588625311474566467466495402001745,
  24240498526998305703921010001,
  104112148414035132588419857718459581777,
  104112148413414906457190799893334934865,
  24240498527863841257306277201,
  26652709993521641009529922007600397632849,
  26652709994233143425292971195000953849169,
  26652709994942491548933889653408439027025,
  26652709993598094706177563249859609052497,
  6205567622911642268347942126929,
  26652709994705735502328325422566620349777,
  24240498528074390045815817553,
  104112148418672553289991447780828988753,
  104112148407850239834641920381862888785,
  6205567623262052983675808466257,
  6205567623298014526828582880593,
  94689447373340031163647313,
  1588625311573736018360146473076049,
  406688079738716701037676597844198737,
  369880653799914866558289,
  94689447373323533875496273,
  1588625311498104941877825157023057,
  369880653796551940719953,
  94689447376437385349645649,
  1588625311550400888223956248380753,
  406688079756812919572707853881656657,
  24240498526999997899342693713,
  104112148417744112225289139388469298513,
  1588625311479492103630469922112849,
  94689447376716648233649489,
  406688079744784887061121902905738577,
  1588625311507826089744635838416209,
  6205567623225019342898682742097,
  6205567623243829459115580409169,
  406688079744785090623825060052157777,
  26652709995260628803271496273053533160785,
  26652709993517298576467781839233039025489,
  94689447376144953944917329,
  24240498527574765335019865425,
  94689447373338931366806865,
  369880653809810320213329,
  94689447371354355979339089,
  369880653813053171516753,
  1588625311469770164535253338506577,
  26652709993598094706176838720105145517393,
  104112148414342185044545272252000453969,
  104112148416815685567279469644795954513,
  1588625311550290424785508638737745,
  26652709994946824320219824868264006993233,
  94689447372757285571741009,
  104112148412496198520773872145604101457,
  1588625311526511703882767105082705,
  1588625311550493261285476300309841,
  6205567622965827604371611665745,
  1588625311498104796636840068990289,
  406688079737564351095043727211447633,
  6205567622985786419895534962001,
  104112148412802023438746399517577135441,
  1588625311465360746152515974546769,
  104112148416201551509241148471451141457,
  94689447374730973535880529,
  94689447372208646449349969,
  104112148412195114416237164624379462993,
  24240498527286832931099460945,
  406688079747174348723245520478094673,
  6205567622965830416913631364433,
  406688079735113572445759667090310481,
  406688079744784887054933830157550929,
  94689447371084919795959121,
  1588625311465103858864934657803601,
  1588625311578458885292326409553233,
  104112148412797188011878612156833154385,
  406688079749559272347553322037495121,
  26652709994151129869209119506272812352849,
  1588625311507050962522244431824209,
  369880653809784533632337,
  104112148412482867132113243970183447889,
  26652709993595613952745044390592765576529,
  24240498527137644583370704209,
  6205567623225380740293184013649,
  369880653815303717602641,
  104112148415577717083186217955890120017,
  94689447376435151966651729,
  1588625311526770607381151352702289,
  406688079755603939351584504537761105,
  1588625311465325076792458101998929,
  406688079736279904880807602654365009,
  6205567623298300784620543493457,
  26652709994392224746173512541819760362833,
  94689447376416485921342801,
  26652709994948681211426539367140011361617,
  1588625311479289411798770404640081,
  26652709994155466361645479749030438061393,
  1588625311550197608400973164528977,
  26652709994387907709666205465650152686929,
  406688079741134460154407558948144465,
  406688079749597237548024188510225745,
  26652709994704813049388687039698471568721,
  1588625311479361679373089586890065,
  24240498527860460241837442385,
  406688079755693737669107162343621969,
  369880653795516702606673,
  104112148413106663575742578704914400593,
  26652709994231921215382652716502970352977,
  406688079756812809397781347544417617,
  104112148412496150965281025691229177169,
  6205567623242527637288130528593,
  1588625311465048235740466380621137,
  406688079760439807786058413285131601,
  26652709993517323902610956807294096852305,
  104112148415582548285387638795423008081,
  104112148416526700239750158307205924177,
  94689447375868967953188177,
  6205567623298591269047172416849,
  369880653796543501780305,
  26652709994467123726309216658834078909777,
  369880653807551318410577,
  369880653806490461488465,
  94689447371922790605997393,
  1588625311554864348682992403432785,
  94689447376154772206601553,
  6205567623224224433357915506001,
  24240498528510965452934825297,
  24240498527573928602627818833,
  1588625311512639608799258586465617,
  26652709994546361607251433427505056138577,
  369880653811953659888977,
  1588625311545696316593576604419409,
  406688079756845755642694682930922833,
  26652709993759320628533654252472746460497,
  406688079749559476631695562078242129,
  1588625311550123536569845855110481,
  94689447377263101402236241,
  94689447376138270942250321,
  24240498526993808671265080657,
  24240498528294773987562308945,
  369880653816377492981073,
  24240498526993533879207150929,
  369880653809823356110161,
  24240498527858220523582211409,
  26652709994710075560280005020873137145169,
  26652709994313007477827402257712890594641,
  104112148412499787243244551141967349073,
  6205567623261839913672642479441,
  24240498527070647014875022673,
  24240498528219632272015181137,
  6205567623058851426095120336209,
  24240498527430661224033764689
]

/-- Boolean check that `n` does not occur in `l`. -/
def natFreeB (n : Nat) : List Nat → Bool
  | [] => true
  | m :: t => !(m == n) && natFreeB n t

/-- Boolean duplicate-freedom check for a list of numbers. -/
def nodupNatB : List Nat → Bool
  | [] => true
  | m :: t => natFreeB m t && nodupNatB t

/-- Boolean check that the key `k` does not occur among the keys of an
association list. -/
def keyFreeB (k : String) : List (String × String) → Bool
  | [] => true
  | kv :: t => !(kv.1 == k) && keyFreeB k t

/-- One parsed Fyers WebSocket dictionary message: `message.get('type', '')`
plus the three fields `on_message` reads, each possibly absent. -/
structure DictMsg where
  type : String
  symbol : Option String
  ltp : Option ℚ
  last_traded_qty : Option ℤ
deriving Repr, DecidableEq

/-- A raw WebSocket callback argument: either not a dict (rejected by the
`isinstance(message, dict)` check) or a dict message. -/
inductive WsMessage
  | nonDict
  | dict (m : DictMsg)
deriving Repr, DecidableEq

/-- The alert `data` record built inside `on_message` when the threshold
is met (the `date`/`time` strings are represented by the instant `observedAt`
they are formatted from). -/
structure SpikeData where
  symbol : String
  sector : String
  volume : ℤ
  price : ℚ
  value_crores : ℚ
  type : String
  observedAt : ℕ
deriving Repr, DecidableEq

/-- Mutable state of `VolumeSpikeDetector` read or written by `on_message`:
the `message_count` debug counter and the `stop_event` flag.
(`last_debug_time` only gates debug printing and is omitted.) -/
structure DetectorState where
  message_count : ℕ
  stop_set : Bool
deriving Repr, DecidableEq

/-- Detector state as built by `VolumeSpikeDetector.__init__`:
`message_count = 0`, stop event not set. -/
def initialDetectorState : DetectorState :=
  { message_count := 0, stop_set := false }

/-- Outcome of one `on_message` call: the updated detector state, the alert
record if one was produced, and the recorded result of each sink call
(`none` when the sink was not called at all). -/
structure OnMessageResult where
  state : DetectorState
  event : Option SpikeData
  persisted : Option Bool
  notified : Option Bool
deriving Repr, DecidableEq

/-- Shorthand for an `on_message` return that produced no alert. -/
def noAlert (s : DetectorState) : OnMessageResult :=
  { state := s, event := none, persisted := none, notified := none }

/-- `VolumeSpikeDetector.on_message` (src/fyers.py lines 1970-2042).
`persist` and `notify` are the success oracles for `add_to_sheet` and
`send_telegram_alert`; `marketEnded` is the value `check_market_end()`
returns during this call; `now` is `datetime.now(...)` in seconds. -/
def on_message (persist notify : SpikeData → Bool) (marketEnded : Bool)
    (now : ℕ) (s : DetectorState) (msg : WsMessage) : OnMessageResult :=
  let s1 : DetectorState := { s with message_count := s.message_count + 1 }
  if marketEnded then
    noAlert { s1 with stop_set := true }
  else
    match msg with
    | .nonDict => noAlert s1
    | .dict m =>
      if m.type = "cn" ∨ m.type = "ful" ∨ m.type = "sub" then
        noAlert s1
      else if m.type = "sf" then
        match m.symbol, m.ltp, m.last_traded_qty with
        | some symbol, some price, some volume =>
          let trade_value : ℚ := (volume : ℚ) * price
          if trade_value ≥ INDIVIDUAL_TRADE_THRESHOLD then
            let data : SpikeData :=
              { symbol := symbol
                sector := get_sector_for_symbol symbol
                volume := volume
                price := price
                value_crores := trade_value / 10000000
                type := "Individual Trade"
                observedAt := now }
            { state := s1
              event := some data
              persisted := some (persist data)
              notified := some (notify data) }
          else noAlert s1
        | _, _, _ => noAlert s1
      else noAlert s1

/-- Run-controller globals touched by `_start_stream_once`
(src/fyers.py lines 59-60): `_running_flag`, `_stop_event`, plus a count
of worker threads spawned so far to observe thread creation. -/
structure ControllerState where
  running : Bool
  stop_set : Bool
  workers : ℕ
deriving Repr, DecidableEq

/-- `_start_stream_once` (src/fyers.py lines 67-77): returns False at once
if `_running_flag` is set; otherwise clears the stop event, spawns the
worker thread, sets the flag and returns True. -/
def start_stream_once (s : ControllerState) : Bool × ControllerState :=
  if s.running then (false, s)
  else (true, { running := true, stop_set := false, workers := s.workers + 1 })

/-- The alert record `on_message` builds for symbol `sym`, price `p` and
last-traded quantity `v` at instant `now`. -/
def mkSpike (sym : String) (p : ℚ) (v : ℤ) (now : ℕ) : SpikeData :=
  { symbol := sym
    sector := get_sector_for_symbol sym
    volume := v
    price := p
    value_crores := (v : ℚ) * p / 10000000
    type := "Individual Trade"
    observedAt := now }

/-!  Helper lemmas characterising `on_message`. -/

lemma on_message_fires (pk nk : SpikeData → Bool) (now : ℕ) (s : DetectorState)
    (sym : String) (p : ℚ) (v : ℤ)
    (ht : (v : ℚ) * p ≥ INDIVIDUAL_TRADE_THRESHOLD) :
    on_message pk nk false now s (.dict ⟨"sf", some sym, some p, some v⟩) =
      { state := { s with message_count := s.message_count + 1 }
        event := some (mkSpike sym p v now)
        persisted := some (pk (mkSpike sym p v now))
        notified := some (nk (mkSpike sym p v now)) } := by
  simp [on_message, mkSpike, ht]

lemma on_message_no_fire (pk nk : SpikeData → Bool) (me : Bool) (now : ℕ)
    (s : DetectorState) (m : DictMsg)
    (hlt : ∀ p v, m.ltp = some p → m.last_traded_qty = some v →
      (v : ℚ) * p < INDIVIDUAL_TRADE_THRESHOLD) :
    (on_message pk nk me now s (.dict m)).event = none ∧
    (on_message pk nk me now s (.dict m)).persisted = none ∧
    (on_message pk nk me now s (.dict m)).notified = none := by
  obtain ⟨ty, sy, lt, q⟩ := m
  by_cases hme : me
  · simp [on_message, noAlert, hme]
  · by_cases hc : ty = "cn" ∨ ty = "ful" ∨ ty = "sub"
    · simp [on_message, noAlert, hme, hc]
    · by_cases hs : ty = "sf"
      · cases sy with
        | none => simp [on_message, noAlert, hme, hc, hs]
        | some sym =>
          cases lt with
          | none => simp [on_message, noAlert, hme, hc, hs]
          | some p =>
            cases q with
            | none => simp [on_message, noAlert, hme, hc, hs]
            | some v =>
              have := hlt p v rfl rfl
              simp [on_message, noAlert, hme, hc, hs, not_le.mpr this]
      · simp [on_message, noAlert, hme, hc, hs]

lemma on_message_dict_event (pk nk : SpikeData → Bool) (me : Bool) (now : ℕ)
    (s : DetectorState) (m : DictMsg) (d : SpikeData)
    (h : (on_message pk nk me now s (.dict m)).event = some d) :
    me = false ∧ m.type = "sf" ∧
    m.symbol = some d.symbol ∧ m.ltp = some d.price ∧
    m.last_traded_qty = some d.volume ∧
    (d.volume : ℚ) * d.price ≥ INDIVIDUAL_TRADE_THRESHOLD ∧
    d.sector = get_sector_for_symbol d.symbol ∧
    d.value_crores = (d.volume : ℚ) * d.price / 10000000 ∧
    d.type = "Individual Trade" ∧ d.observedAt = now ∧
    (on_message pk nk me now s (.dict m)).persisted = some (pk d) ∧
    (on_message pk nk me now s (.dict m)).notified = some (nk d) := by
  obtain ⟨ty, sy, lt, q⟩ := m
  by_cases hme : me
  · simp [on_message, noAlert, hme] at h
  · by_cases hc : ty = "cn" ∨ ty = "ful" ∨ ty = "sub"
    · simp [on_message, noAlert, hme, hc] at h
    · by_cases hs : ty = "sf"
      · cases sy with
        | none => simp [on_message, noAlert, hme, hc, hs] at h
        | some sym =>
          cases lt with
          | none => simp [on_message, noAlert, hme, hc, hs] at h
          | some p =>
            cases q with
            | none => simp [on_message, noAlert, hme, hc, hs] at h
            | some v =>
              by_cases ht : (v : ℚ) * p ≥ INDIVIDUAL_TRADE_THRESHOLD
              · have hfire :
                    on_message pk nk me now s (.dict ⟨ty, some sym, some p, some v⟩) =
                      { state := { s with message_count := s.message_count + 1 }
                        event := some (mkSpike sym p v now)
                        persisted := some (pk (mkSpike sym p v now))
                        notified := some (nk (mkSpike sym p v now)) } := by
                  subst hs
                  have hme' : me = false := by simpa using hme
                  subst hme'
                  exact on_message_fires pk nk now s sym p v ht
                rw [hfire] at h ⊢
                have hd : d = mkSpike sym p v now := by
                  simpa using h.symm
                subst hd
                simp [mkSpike, hme, hs, ht]
              · simp [on_message, noAlert, hme, hc, hs, ht] at h
      · simp [on_message, noAlert, hme, hc, hs] at h

lemma on_message_non_dict (pk nk : SpikeData → Bool) (me : Bool) (now : ℕ)
    (s : DetectorState) :
    (on_message pk nk me now s .nonDict).event = none := by
  by_cases hme : me <;> simp [on_message, noAlert, hme]

/-!  Helper lemmas about the dictionary fold behind `dictGet`. -/

lemma foldl_dict_of_not_mem (k : String) (l : List (String × String))
    (acc : Option String) (h : k ∉ l.map Prod.fst) :
    l.foldl (fun acc kv => if kv.1 = k then some kv.2 else acc) acc = acc := by
  induction l generalizing acc with
  | nil => rfl
  | cons a t ih =>
    simp only [List.map_cons, List.mem_cons] at h
    push_neg at h
    simp only [List.foldl_cons]
    rw [if_neg fun hk => h.1 hk.symm]
    exact ih acc h.2

lemma foldl_dict_of_mem (k sec : String) (l : List (String × String))
    (hnd : (l.map Prod.fst).Nodup) (hmem : (k, sec) ∈ l) (acc : Option String) :
    l.foldl (fun acc kv => if kv.1 = k then some kv.2 else acc) acc = some sec := by
  induction l generalizing acc with
  | nil => cases hmem
  | cons a t ih =>
    simp only [List.map_cons, List.nodup_cons] at hnd
    rcases List.mem_cons.mp hmem with h | h
    · simp only [List.foldl_cons, if_pos (congrArg Prod.fst h).symm]
      have hval : a.2 = sec := (congrArg Prod.snd h).symm
      have hkey : k ∉ t.map Prod.fst := by
        intro hk
        exact hnd.1 ((congrArg Prod.fst h) ▸ hk)
      rw [foldl_dict_of_not_mem k t _ hkey, hval]
    · have hk : k ∈ t.map Prod.fst := List.mem_map.mpr ⟨(k, sec), h, rfl⟩
      have hne : ¬ a.1 = k := fun he => hnd.1 (he ▸ hk)
      simp only [List.foldl_cons, if_neg hne]
      exact ih hnd.2 h acc

lemma natFreeB_spec (n : Nat) :
    ∀ l : List Nat, natFreeB n l = true → n ∉ l := by
  intro l
  induction l with
  | nil => intro _; simp
  | cons a t ih =>
    intro h
    simp only [natFreeB, Bool.and_eq_true, Bool.not_eq_true'] at h
    simp only [List.mem_cons, not_or]
    exact ⟨fun he => absurd (he ▸ h.1) (by simp), ih h.2⟩

lemma nodupNatB_spec : ∀ l : List Nat, nodupNatB l = true → l.Nodup := by
  intro l
  induction l with
  | nil => intro _; simp
  | cons a t ih =>
    intro h
    simp only [nodupNatB, Bool.and_eq_true] at h
    simp only [List.nodup_cons]
    exact ⟨natFreeB_spec a t h.1, ih h.2⟩

lemma keyFreeB_spec (k : String) :
    ∀ l : List (String × String), keyFreeB k l = true → k ∉ l.map Prod.fst := by
  intro l
  induction l with
  | nil => intro _; simp
  | cons a t ih =>
    intro h
    simp only [keyFreeB, Bool.and_eq_true, Bool.not_eq_true'] at h
    simp only [List.map_cons, List.mem_cons, not_or]
    exact ⟨fun he => absurd (he ▸ h.1) (by simp), ih h.2⟩

set_option maxRecDepth 100000 in
set_option maxHeartbeats 1000000 in
lemma sector_codes_eq :
    (SECTOR_MAPPING.map Prod.fst).map strCode = SECTOR_KEY_CODES := rfl

set_option maxRecDepth 100000 in
set_option maxHeartbeats 1000000 in
lemma sector_codes_nodup : SECTOR_KEY_CODES.Nodup :=
  nodupNatB_spec SECTOR_KEY_CODES (by decide)

lemma sector_keys_nodup : (SECTOR_MAPPING.map Prod.fst).Nodup :=
  List.Nodup.of_map strCode (sector_codes_eq ▸ sector_codes_nodup)

/-- C1: a tick is persisted and notified as an alert only when its notional
value (price times traded quantity) reaches `INDIVIDUAL_TRADE_THRESHOLD`;
any tick with a strictly smaller notional produces no alert, no persist
call and no notify call. -/
theorem tick_threshold_gate (pk nk : SpikeData → Bool) (me : Bool) (now : ℕ)
    (s : DetectorState) (m : DictMsg) (p : ℚ) (v : ℤ)
    (hp : m.ltp = some p) (hv : m.last_traded_qty = some v) :
    (∀ d : SpikeData, (on_message pk nk me now s (.dict m)).event = some d →
      d.price = p ∧ d.volume = v ∧
      p * (v : ℚ) ≥ INDIVIDUAL_TRADE_THRESHOLD ∧
      (on_message pk nk me now s (.dict m)).persisted = some (pk d) ∧
      (on_message pk nk me now s (.dict m)).notified = some (nk d)) ∧
    (p * (v : ℚ) < INDIVIDUAL_TRADE_THRESHOLD →
      (on_message pk nk me now s (.dict m)).event = none ∧
      (on_message pk nk me now s (.dict m)).persisted = none ∧
      (on_message pk nk me now s (.dict m)).notified = none) := by
  constructor
  · intro d hd
    obtain ⟨-, -, -, hlp, hlv, hge, -, -, -, -, hpers, hnot⟩ :=
      on_message_dict_event pk nk me now s m d hd
    have hpe : d.price = p := by
      have := hlp.symm.trans hp
      exact Option.some.inj this
    have hve : d.volume = v := by
      have := hlv.symm.trans hv
      exact Option.some.inj this
    refine ⟨hpe, hve, ?_, hpers, hnot⟩
    calc p * (v : ℚ) = (d.volume : ℚ) * d.price := by rw [hpe, hve]; ring
    _ ≥ INDIVIDUAL_TRADE_THRESHOLD := hge
  · intro hlt
    refine on_message_no_fire pk nk me now s m ?_
    intro p' v' hp' hv'
    have hpe : p' = p := Option.some.inj (hp'.symm.trans hp)
    have hve : v' = v := Option.some.inj (hv'.symm.trans hv)
    subst hpe; subst hve
    calc (v' : ℚ) * p' = p' * (v' : ℚ) := by ring
    _ < INDIVIDUAL_TRADE_THRESHOLD := hlt

/-- C1 witness: a tick of price 100 and quantity 50000 (notional 5,000,000)
meets the threshold, while one of price 2 and quantity 100 (notional 200)
produces neither alert nor persist nor notify. -/
theorem tick_threshold_gate_witness :
    (100 : ℚ) * ((50000 : ℤ) : ℚ) ≥ INDIVIDUAL_TRADE_THRESHOLD ∧
    (on_message (fun _ => true) (fun _ => true) false 5 initialDetectorState
      (.dict ⟨"sf", some "NSE:PNB-EQ", some 2, some 100⟩)).event = none := by
  have h1 := tick_threshold_gate (fun _ => true) (fun _ => true) false 5
    initialDetectorState ⟨"sf", some "NSE:PNB-EQ", some 100, some 50000⟩
    100 50000 rfl rfl
  have h2 := tick_threshold_gate (fun _ => true) (fun _ => true) false 5
    initialDetectorState ⟨"sf", some "NSE:PNB-EQ", some 2, some 100⟩
    2 100 rfl rfl
  refine ⟨(h1.1 (mkSpike "NSE:PNB-EQ" 100 50000 5) ?_).2.2.1,
    (h2.2 (by norm_num [INDIVIDUAL_TRADE_THRESHOLD])).1⟩
  rw [on_message_fires _ _ _ _ _ _ _ (by norm_num [INDIVIDUAL_TRADE_THRESHOLD])]

/-- C2 counterexample: `MIN_VOLUME_SPIKE` is never consulted by
`on_message` — a tick whose quantity 1000 is not above the floor still
produces an alert, because its notional 3,001,000 meets the threshold. -/
theorem min_volume_floor_cex :
    (1000 : ℤ) ≤ MIN_VOLUME_SPIKE ∧
    (on_message (fun _ => true) (fun _ => true) false 0 initialDetectorState
      (.dict ⟨"sf", some "NSE:YESBANK-EQ", some 3001, some 1000⟩)).event.isSome
      = true := by
  constructor
  · decide
  · rw [on_message_fires _ _ _ _ _ _ _ (by norm_num [INDIVIDUAL_TRADE_THRESHOLD])]
    rfl

/-- C2 amended: the `MIN_VOLUME_SPIKE` floor is declared but not enforced —
for every tick whose quantity is at most the floor but whose notional meets
`INDIVIDUAL_TRADE_THRESHOLD`, an alert is still produced. -/
theorem min_volume_floor_not_enforced (pk nk : SpikeData → Bool) (now : ℕ)
    (s : DetectorState) (sym : String) (p : ℚ) (v : ℤ)
    (hv : v ≤ MIN_VOLUME_SPIKE)
    (ht : (v : ℚ) * p ≥ INDIVIDUAL_TRADE_THRESHOLD) :
    (on_message pk nk false now s
      (.dict ⟨"sf", some sym, some p, some v⟩)).event.isSome = true := by
  rw [on_message_fires pk nk now s sym p v ht]
  rfl

/-- C2 amended witness: quantity 1000 with price 3001. -/
theorem min_volume_floor_not_enforced_witness :
    (on_message (fun _ => false) (fun _ => false) false 7 initialDetectorState
      (.dict ⟨"sf", some "NSE:IDEA-EQ", some 3001, some 1000⟩)).event.isSome
      = true :=
  min_volume_floor_not_enforced (fun _ => false) (fun _ => false) 7
    initialDetectorState "NSE:IDEA-EQ" 3001 1000 (by decide)
    (by norm_num [INDIVIDUAL_TRADE_THRESHOLD])

/-- C3 counterexample: no cool-down exists — the same qualifying tick
processed once at instant 0 and again at instant 1 (1 second later, well
inside any 60-second window) produces an alert both times. -/
theorem cooldown_cex :
    ((on_message (fun _ => true) (fun _ => true) false 0 initialDetectorState
        (.dict ⟨"sf", some "NSE:SUZLON-EQ", some 100, some 50000⟩)).event.map
      SpikeData.observedAt) = some 0 ∧
    ((on_message (fun _ => true) (fun _ => true) false 1
        (on_message (fun _ => true) (fun _ => true) false 0 initialDetectorState
          (.dict ⟨"sf", some "NSE:SUZLON-EQ", some 100, some 50000⟩)).state
        (.dict ⟨"sf", some "NSE:SUZLON-EQ", some 100, some 50000⟩)).event.map
      SpikeData.observedAt) = some 1 := by
  constructor <;>
    rw [on_message_fires _ _ _ _ _ _ _ (by norm_num [INDIVIDUAL_TRADE_THRESHOLD])] <;>
    rfl

/-- C3 amended: `on_message` keeps no last-alert state, so two qualifying
ticks for the same symbol separated by less than 60 seconds each produce an
alert — the second is persisted and notified, not suppressed. -/
theorem no_cooldown_suppression (pk nk : SpikeData → Bool) (now now' : ℕ)
    (s : DetectorState) (sym : String) (p : ℚ) (v : ℤ)
    (hord : now ≤ now') (hgap : now' - now < 60)
    (ht : (v : ℚ) * p ≥ INDIVIDUAL_TRADE_THRESHOLD) :
    (on_message pk nk false now s
      (.dict ⟨"sf", some sym, some p, some v⟩)).event = some (mkSpike sym p v now) ∧
    (on_message pk nk false now'
      (on_message pk nk false now s (.dict ⟨"sf", some sym, some p, some v⟩)).state
      (.dict ⟨"sf", some sym, some p, some v⟩)).event = some (mkSpike sym p v now') ∧
    (on_message pk nk false now'
      (on_message pk nk false now s (.dict ⟨"sf", some sym, some p, some v⟩)).state
      (.dict ⟨"sf", some sym, some p, some v⟩)).persisted
        = some (pk (mkSpike sym p v now')) ∧
    (on_message pk nk false now'
      (on_message pk nk false now s (.dict ⟨"sf", some sym, some p, some v⟩)).state
      (.dict ⟨"sf", some sym, some p, some v⟩)).notified
        = some (nk (mkSpike sym p v now')) := by
  rw [on_message_fires pk nk now s sym p v ht]
  rw [on_message_fires pk nk now' _ sym p v ht]
  exact ⟨rfl, rfl, rfl, rfl⟩

/-- C3 amended witness: two qualifying ticks at instants 10 and 30
(20 seconds apart) both fire. -/
theorem no_cooldown_suppression_witness :
    (on_message (fun _ => true) (fun _ => false) false 10 initialDetectorState
      (.dict ⟨"sf", some "NSE:SUZLON-EQ", some 100, some 50000⟩)).event
        = some (mkSpike "NSE:SUZLON-EQ" 100 50000 10) ∧
    (on_message (fun _ => true) (fun _ => false) false 30
      (on_message (fun _ => true) (fun _ => false) false 10 initialDetectorState
        (.dict ⟨"sf", some "NSE:SUZLON-EQ", some 100, some 50000⟩)).state
      (.dict ⟨"sf", some "NSE:SUZLON-EQ", some 100, some 50000⟩)).event
        = some (mkSpike "NSE:SUZLON-EQ" 100 50000 30) ∧
    (on_message (fun _ => true) (fun _ => false) false 30
      (on_message (fun _ => true) (fun _ => false) false 10 initialDetectorState
        (.dict ⟨"sf", some "NSE:SUZLON-EQ", some 100, some 50000⟩)).state
      (.dict ⟨"sf", some "NSE:SUZLON-EQ", some 100, some 50000⟩)).persisted
        = some ((fun _ => true) (mkSpike "NSE:SUZLON-EQ" 100 50000 30)) ∧
    (on_message (fun _ => true) (fun _ => false) false 30
      (on_message (fun _ => true) (fun _ => false) false 10 initialDetectorState
        (.dict ⟨"sf", some "NSE:SUZLON-EQ", some 100, some 50000⟩)).state
      (.dict ⟨"sf", some "NSE:SUZLON-EQ", some 100, some 50000⟩)).notified
        = some ((fun _ => false) (mkSpike "NSE:SUZLON-EQ" 100 50000 30)) :=
  no_cooldown_suppression (fun _ => true) (fun _ => false) 10 30
    initialDetectorState "NSE:SUZLON-EQ" 100 50000 (by decide) (by decide)
    (by norm_num [INDIVIDUAL_TRADE_THRESHOLD])

/-- C4 counterexample: the detector keeps no per-symbol volume state — the
very first tick ever processed (fresh `initialDetectorState`) already
produces an alert when its notional meets the threshold, instead of
establishing a zero-delta baseline. -/
theorem first_tick_cex :
    (on_message (fun _ => true) (fun _ => true) false 0 initialDetectorState
      (.dict ⟨"sf", some "NSE:IDEA-EQ", some 10, some 500000⟩)).event.isSome
      = true := by
  rw [on_message_fires _ _ _ _ _ _ _ (by norm_num [INDIVIDUAL_TRADE_THRESHOLD])]
  rfl

/-- C4 amended: there is no previous-volume store; the first-ever tick for a
symbol is classified like any other, producing an alert exactly when its
price times last-traded quantity reaches the threshold. -/
theorem first_tick_fires_iff (pk nk : SpikeData → Bool) (now : ℕ)
    (sym : String) (p : ℚ) (v : ℤ) :
    (on_message pk nk false now initialDetectorState
      (.dict ⟨"sf", some sym, some p, some v⟩)).event.isSome = true
    ↔ (v : ℚ) * p ≥ INDIVIDUAL_TRADE_THRESHOLD := by
  constructor
  · intro h
    by_contra hlt
    push_neg at hlt
    have hnone := (on_message_no_fire pk nk false now initialDetectorState
      ⟨"sf", some sym, some p, some v⟩ ?_).1
    · rw [hnone] at h
      exact Bool.false_ne_true h
    · intro p' v' hp' hv'
      cases Option.some.inj hp'
      cases Option.some.inj hv'
      exact hlt
  · intro ht
    rw [on_message_fires pk nk now initialDetectorState sym p v ht]
    rfl

/-- C4 amended witness: a first-ever tick of price 10 and quantity 500,000
(notional 5,000,000) fires immediately. -/
theorem first_tick_fires_iff_witness :
    (on_message (fun _ => true) (fun _ => true) false 0 initialDetectorState
      (.dict ⟨"sf", some "NSE:TTML-EQ", some 10, some 500000⟩)).event.isSome
      = true :=
  (first_tick_fires_iff (fun _ => true) (fun _ => true) 0 "NSE:TTML-EQ"
    10 500000).mpr (by norm_num [INDIVIDUAL_TRADE_THRESHOLD])

/-- C5 counterexample: an alert whose quantity is 4,999,000 times the
previous-volume baseline the spec posits is still labelled with the fixed
string "Individual Trade", not "Large Spike" or any other severity tier. -/
theorem severity_tiers_cex :
    ((on_message (fun _ => true) (fun _ => true) false 0 initialDetectorState
      (.dict ⟨"sf", some "NSE:RPOWER-EQ", some 100, some 4999000⟩)).event.map
      SpikeData.type) = some "Individual Trade" ∧
    ¬("Individual Trade" = "Large Spike" ∨ "Individual Trade" = "Medium Spike"
      ∨ "Individual Trade" = "Volume Increase") := by
  constructor
  · rw [on_message_fires _ _ _ _ _ _ _ (by norm_num [INDIVIDUAL_TRADE_THRESHOLD])]
    rfl
  · decide

/-- C5 amended: every alert `on_message` emits carries the fixed label
"Individual Trade"; no spike percentage and no severity tier is computed. -/
theorem event_type_fixed (pk nk : SpikeData → Bool) (me : Bool) (now : ℕ)
    (s : DetectorState) (msg : WsMessage) (d : SpikeData)
    (h : (on_message pk nk me now s msg).event = some d) :
    d.type = "Individual Trade" := by
  cases msg with
  | nonDict =>
    rw [on_message_non_dict] at h
    cases h
  | dict m =>
    obtain ⟨-, -, -, -, -, -, -, -, hty, -, -, -⟩ :=
      on_message_dict_event pk nk me now s m d h
    exact hty

/-- C5 amended witness: a concrete fired alert has label "Individual Trade". -/
theorem event_type_fixed_witness :
    (mkSpike "NSE:ROLLT-EQ" 100 50000 3).type = "Individual Trade" := by
  refine event_type_fixed (fun _ => true) (fun _ => true) false 3
    initialDetectorState
    (.dict ⟨"sf", some "NSE:ROLLT-EQ", some 100, some 50000⟩) _ ?_
  rw [on_message_fires _ _ _ _ _ _ _ (by norm_num [INDIVIDUAL_TRADE_THRESHOLD])]

/-- C6 counterexample: `on_message` performs no non-positive check — a tick
with negative price -3000 and negative quantity -1000 has product 3,000,000,
meets the threshold, and is alerted, persisted and notified rather than
dropped. -/
theorem nonpositive_tick_cex :
    ((-3000 : ℚ) ≤ 0 ∧ (-1000 : ℤ) ≤ 0) ∧
    (on_message (fun _ => true) (fun _ => true) false 0 initialDetectorState
      (.dict ⟨"sf", some "NSE:GTL-EQ", some (-3000), some (-1000)⟩)).event.isSome
      = true ∧
    (on_message (fun _ => true) (fun _ => true) false 0 initialDetectorState
      (.dict ⟨"sf", some "NSE:GTL-EQ", some (-3000), some (-1000)⟩)).persisted.isSome
      = true ∧
    (on_message (fun _ => true) (fun _ => true) false 0 initialDetectorState
      (.dict ⟨"sf", some "NSE:GTL-EQ", some (-3000), some (-1000)⟩)).notified.isSome
      = true := by
  refine ⟨⟨by norm_num, by norm_num⟩, ?_⟩
  rw [on_message_fires _ _ _ _ _ _ _ (by norm_num [INDIVIDUAL_TRADE_THRESHOLD])]
  exact ⟨rfl, rfl, rfl⟩

/-- C6 amended: a tick with exactly one of price, quantity non-positive has
non-positive notional, which is below the positive threshold, so it is
dropped silently — no alert, no persist call, no notify call (and the
handler, being total, propagates no exception).  No explicit validity check
exists, so a tick whose price and quantity are both negative can still fire. -/
theorem one_sided_nonpositive_dropped (pk nk : SpikeData → Bool) (me : Bool)
    (now : ℕ) (s : DetectorState) (ty sym : String) (p : ℚ) (v : ℤ)
    (h : (p ≤ 0 ∧ 0 ≤ v) ∨ (0 ≤ p ∧ v ≤ 0)) :
    (on_message pk nk me now s (.dict ⟨ty, some sym, some p, some v⟩)).event
      = none ∧
    (on_message pk nk me now s (.dict ⟨ty, some sym, some p, some v⟩)).persisted
      = none ∧
    (on_message pk nk me now s (.dict ⟨ty, some sym, some p, some v⟩)).notified
      = none := by
  refine on_message_no_fire pk nk me now s ⟨ty, some sym, some p, some v⟩ ?_
  intro p' v' hp' hv'
  cases Option.some.inj hp'
  cases Option.some.inj hv'
  have hprod : (v : ℚ) * p ≤ 0 := by
    rcases h with ⟨hp0, hv0⟩ | ⟨hp0, hv0⟩
    · have hv0' : (0 : ℚ) ≤ (v : ℚ) := by exact_mod_cast hv0
      nlinarith
    · have hv0' : ((v : ℚ)) ≤ 0 := by exact_mod_cast hv0
      nlinarith
  calc (v : ℚ) * p ≤ 0 := hprod
  _ < INDIVIDUAL_TRADE_THRESHOLD := by norm_num [INDIVIDUAL_TRADE_THRESHOLD]

/-- C6 amended witness: a tick with price -5 and quantity 7 is dropped with
no persist and no notify call. -/
theorem one_sided_nonpositive_dropped_witness :
    (on_message (fun _ => true) (fun _ => true) false 2 initialDetectorState
      (.dict ⟨"sf", some "NSE:NDTV-EQ", some (-5), some 7⟩)).event = none ∧
    (on_message (fun _ => true) (fun _ => true) false 2 initialDetectorState
      (.dict ⟨"sf", some "NSE:NDTV-EQ", some (-5), some 7⟩)).persisted = none ∧
    (on_message (fun _ => true) (fun _ => true) false 2 initialDetectorState
      (.dict ⟨"sf", some "NSE:NDTV-EQ", some (-5), some 7⟩)).notified = none :=
  one_sided_nonpositive_dropped (fun _ => true) (fun _ => true) false 2
    initialDetectorState "sf" "NSE:NDTV-EQ" (-5) 7
    (Or.inl ⟨by norm_num, by norm_num⟩)

/-- C7: the persist sink (`add_to_sheet`) and the notify sink
(`send_telegram_alert`) are independent and non-fatal: whether the alert
fires and how processing continues does not depend on either sink's success
value, and whenever an alert fires both sinks are called, each recorded
result being exactly its own oracle's answer on the alert.  (In the source
each sink traps its own exceptions and returns False, so "raises" is
modelled as returning false.) -/
theorem sinks_independent (pk pk' nk nk' : SpikeData → Bool) (me : Bool)
    (now : ℕ) (s : DetectorState) (msg : WsMessage) :
    (on_message pk nk me now s msg).event
      = (on_message pk' nk' me now s msg).event ∧
    (on_message pk nk me now s msg).state
      = (on_message pk' nk' me now s msg).state ∧
    (on_message pk nk me now s msg).persisted
      = Option.map pk (on_message pk nk me now s msg).event ∧
    (on_message pk nk me now s msg).notified
      = Option.map nk (on_message pk nk me now s msg).event := by
  cases msg with
  | nonDict => by_cases hme : me <;> simp [on_message, noAlert, hme]
  | dict m =>
    obtain ⟨ty, sy, lt, q⟩ := m
    by_cases hme : me
    · simp [on_message, noAlert, hme]
    · by_cases hc : ty = "cn" ∨ ty = "ful" ∨ ty = "sub"
      · simp [on_message, noAlert, hme, hc]
      · by_cases hs : ty = "sf"
        · cases sy with
          | none => simp [on_message, noAlert, hme, hc, hs]
          | some sym =>
            cases lt with
            | none => simp [on_message, noAlert, hme, hc, hs]
            | some p =>
              cases q with
              | none => simp [on_message, noAlert, hme, hc, hs]
              | some v =>
                by_cases ht : (v : ℚ) * p ≥ INDIVIDUAL_TRADE_THRESHOLD <;>
                  simp [on_message, noAlert, hme, hc, hs, ht]
        · simp [on_message, noAlert, hme, hc, hs]

/-- C8: requesting a stream start while `_running_flag` is already set
returns False and leaves the controller state untouched — no worker thread
is spawned and the stop event is not cleared. -/
theorem start_stream_once_noop (s : ControllerState) (h : s.running = true) :
    start_stream_once s = (false, s) := by
  simp [start_stream_once, h]

/-- C8 witness: with the flag set, the stop event set and one worker alive,
a start request returns False and changes nothing. -/
theorem start_stream_once_noop_witness :
    start_stream_once ⟨true, true, 1⟩ = (false, (⟨true, true, 1⟩ : ControllerState)) :=
  start_stream_once_noop ⟨true, true, 1⟩ rfl

/-- C9 counterexample: the configured individual-trade threshold is not
₹30,000,000. -/
theorem threshold_value_cex : INDIVIDUAL_TRADE_THRESHOLD ≠ (30000000 : ℚ) := by
  norm_num [INDIVIDUAL_TRADE_THRESHOLD]

/-- C9 amended: the canonical value of `INDIVIDUAL_TRADE_THRESHOLD` is
₹3,000,000 (Rs 3 million), as the source comment states. -/
theorem threshold_value : INDIVIDUAL_TRADE_THRESHOLD = (3000000 : ℚ) := rfl

/-- C10: `get_sector_for_symbol` is total and deterministic — every symbol
that is a key of `SECTOR_MAPPING` is mapped to that key's sector string,
and every other symbol is mapped to "Others". -/
theorem get_sector_total (sym : String) :
    (∀ sec, (sym, sec) ∈ SECTOR_MAPPING → get_sector_for_symbol sym = sec) ∧
    (sym ∉ SECTOR_MAPPING.map Prod.fst → get_sector_for_symbol sym = "Others") := by
  constructor
  · intro sec hmem
    unfold get_sector_for_symbol dictGet
    rw [foldl_dict_of_mem sym sec SECTOR_MAPPING sector_keys_nodup hmem none]
  · intro hnm
    unfold get_sector_for_symbol dictGet
    rw [foldl_dict_of_not_mem sym SECTOR_MAPPING none hnm]

/-- C10 witness: a mapped symbol resolves to its sector and an unmapped one
to "Others". -/
theorem get_sector_total_witness :
    get_sector_for_symbol "NSE:TRIDENT-EQ" = "Textiles" ∧
    get_sector_for_symbol "NSE:ZZFAKE-EQ" = "Others" :=
  ⟨(get_sector_total "NSE:TRIDENT-EQ").1 "Textiles" (by decide),
   (get_sector_total "NSE:ZZFAKE-EQ").2
     (keyFreeB_spec "NSE:ZZFAKE-EQ" SECTOR_MAPPING (by decide))⟩

end Penny
